import Mathlib

/-!
Verification development for the ORM field-type module `lib/orm/fields.py`
of the yameo repository.

The module declares a `Field` base class and typed subclasses (Bool, Int,
Currency, Decimal, String, List, Enum, Set, Date, DateTime, Time, Binary,
Image, ...), each holding configuration metadata and a `check(data)`
validation hook that raises `Core400Exception` on bad input, while field
constructors raise `Core500Exception` on bad configuration.

Embedding notes:
* Python runtime values are modelled by the inductive `PyVal`; Python's
  exact-type test `type(x) is T` becomes a match on the constructor tag,
  so `pyBool` and `pyInt` are distinct (as `type(True) is int` is false).
* A compiled regular expression is modelled extensionally as the predicate
  `Regex := String → Bool` giving the success of `pattern.match(s)`
  (a match anchored at the start of the string).
* Raising is modelled with `Except CoreExn`; `CoreExn.core400` and
  `CoreExn.core500` are the module's two HTTP-mapped exception classes and
  `CoreExn.pyError` stands for any other Python-level exception
  (`AttributeError`, decoder errors, ...), which is neither 400- nor
  500-class.
* Byte strings are lists of naturals below 256; `encodeUtf8` is the
  standard UTF-8 encoding used by `str.encode("utf8")`.
-/

namespace Yameo

/-- Python runtime values, as far as the field module inspects them.
Constructor tags model Python's exact runtime type: `type(True) is int`
is false in Python, hence separate `pyBool` and `pyInt` constructors. -/
inductive PyVal where
  | pyBool (b : Bool)
  | pyInt (n : Int)
  | pyFloat (q : ℚ)
  | pyStr (s : String)
  | pyBytes (bs : List Nat)
  | pyList (l : List PyVal)
  | pyDate (d : Nat)
  | pyDatetime (d : Nat)
  | pyTime (t : Nat)
  | pyNone

/-- Exceptions raised by the module: `Core400Exception` (client-input
validation error), `Core500Exception` (server-side configuration error),
and `pyError` for any other Python exception (e.g. `AttributeError`). -/
inductive CoreExn where
  | core400 (msg : String)
  | core500 (msg : String)
  | pyError (msg : String)
deriving DecidableEq, Repr

/-- True exactly on a 400-class (client-input validation) failure. -/
def raises400 : Except CoreExn Unit → Bool
  | Except.error (CoreExn.core400 _) => true
  | _ => false

/-- True exactly on a 500-class (configuration) failure. -/
def raises500 {α : Type} : Except CoreExn α → Bool
  | Except.error (CoreExn.core500 _) => true
  | _ => false

/-- A compiled regular expression, modelled extensionally: `r s` is the
success of `r.match(s)` (match anchored at the start of `s`). -/
def Regex : Type := String → Bool

/-- Exact-type tests mirroring Python's `type(x) is bool` etc. -/
def PyVal.isBool : PyVal → Bool
  | PyVal.pyBool _ => true
  | _ => false

/-- Mirrors `type(x) is int`; false on booleans, as in Python 3. -/
def PyVal.isInt : PyVal → Bool
  | PyVal.pyInt _ => true
  | _ => false

/-- Mirrors `type(x) is float`. -/
def PyVal.isFloat : PyVal → Bool
  | PyVal.pyFloat _ => true
  | _ => false

/-- Mirrors `type(x) is str`. -/
def PyVal.isStr : PyVal → Bool
  | PyVal.pyStr _ => true
  | _ => false

/-- Mirrors `type(x) is list`. -/
def PyVal.isList : PyVal → Bool
  | PyVal.pyList _ => true
  | _ => false

/-- Mirrors `type(x) is datetime.date`. -/
def PyVal.isDate : PyVal → Bool
  | PyVal.pyDate _ => true
  | _ => false

/-- Mirrors `type(x) is datetime.datetime`. -/
def PyVal.isDatetime : PyVal → Bool
  | PyVal.pyDatetime _ => true
  | _ => false

/-- Mirrors `type(x) is datetime.time`. -/
def PyVal.isTime : PyVal → Bool
  | PyVal.pyTime _ => true
  | _ => false

/-- UTF-8 encoding of one character (code point to byte sequence). -/
def utf8Char (c : Char) : List Nat :=
  let n := c.toNat
  if n < 0x80 then [n]
  else if n < 0x800 then [0xC0 + n / 0x40, 0x80 + n % 0x40]
  else if n < 0x10000 then
    [0xE0 + n / 0x1000, 0x80 + (n / 0x40) % 0x40, 0x80 + n % 0x40]
  else
    [0xF0 + n / 0x40000, 0x80 + (n / 0x1000) % 0x40,
     0x80 + (n / 0x40) % 0x40, 0x80 + n % 0x40]

/-- `s.encode("utf8")`: the UTF-8 byte string of a Python `str`. -/
def encodeUtf8 (s : String) : List Nat :=
  (s.data.map utf8Char).flatten

mutual

/-- Structural equality on `PyVal`. The module compares values only with
a `bytes` probe (Enum/Set membership), where Python `==` coincides with
structural equality, so no cross-type numeric equality is modelled. -/
def PyVal.beq : PyVal → PyVal → Bool
  | PyVal.pyBool a, PyVal.pyBool b => a == b
  | PyVal.pyInt a, PyVal.pyInt b => a == b
  | PyVal.pyFloat a, PyVal.pyFloat b => a == b
  | PyVal.pyStr a, PyVal.pyStr b => a == b
  | PyVal.pyBytes a, PyVal.pyBytes b => a == b
  | PyVal.pyList a, PyVal.pyList b => PyVal.beqList a b
  | PyVal.pyDate a, PyVal.pyDate b => a == b
  | PyVal.pyDatetime a, PyVal.pyDatetime b => a == b
  | PyVal.pyTime a, PyVal.pyTime b => a == b
  | PyVal.pyNone, PyVal.pyNone => true
  | _, _ => false

/-- Pointwise `PyVal.beq` on lists. -/
def PyVal.beqList : List PyVal → List PyVal → Bool
  | [], [] => true
  | x :: xs, y :: ys => PyVal.beq x y && PyVal.beqList xs ys
  | _, _ => false

end

/-- Python's `x in values` membership test, used by Enum/Set `check`. -/
def pyMem (x : PyVal) (values : List PyVal) : Bool :=
  values.any fun v => PyVal.beq v x

/-- Arguments of `Field.__init__` with their Python default values
(see `FieldArgs.dflt`). `compute` and `constraints` are callables; only
their presence matters to the module, hence `Option Unit`. -/
structure FieldArgs where
  fieldName : Option String
  label : Option String
  help : Option String
  default : Option PyVal
  identifier : Bool
  require : Bool
  copy : Bool
  unique : Bool
  compute : Option Unit
  constraints : Option Unit
  index : Bool
  readwrite : List String
  readonly : List String
  backendType : Option String

/-- The default argument values of `Field.__init__`. -/
def FieldArgs.dflt : FieldArgs where
  fieldName := none
  label := none
  help := none
  default := none
  identifier := false
  require := true
  copy := true
  unique := false
  compute := none
  constraints := none
  index := false
  readwrite := ["*"]
  readonly := ["*"]
  backendType := none

/-- A constructed `Field` object. `regex` is the class attribute `regex`
(`None` on the base class, a compiled pattern on regex-validated
subclasses; `StringField`/`ListField` overwrite it per instance). -/
structure Field where
  fieldName : Option String
  label : Option String
  help : Option String
  default : Option PyVal
  identifier : Bool
  require : Bool
  unique : Bool
  copy : Bool
  compute : Option Unit
  constraints : Option Unit
  index : Bool
  readwrite : List String
  readonly : List String
  backendType : Option String
  regex : Option Regex

/-- `Field.__init__` with class attribute `regex` equal to `rx`: stores
every argument, except that `identifier=True` forces `require=True` and
`default=None`. -/
def Field.initWith (rx : Option Regex) (a : FieldArgs) : Field where
  fieldName := a.fieldName
  label := a.label
  help := a.help
  default := if a.identifier then none else a.default
  identifier := a.identifier
  require := if a.identifier then true else a.require
  unique := a.unique
  copy := a.copy
  compute := a.compute
  constraints := a.constraints
  index := a.index
  readwrite := a.readwrite
  readonly := a.readonly
  backendType := a.backendType
  regex := rx

/-- `Field.__init__` on the base class, whose class attribute `regex`
is `None`. -/
def Field.init (a : FieldArgs) : Field :=
  Field.initWith none a

/-- `Field.check(data)`: raises `Core400Exception` when `regex` is set and
`regex.match(data)` is `None`; returns normally otherwise. The docstring
types `data` as `str`. -/
def Field.check (f : Field) (data : String) : Except CoreExn Unit :=
  match f.regex with
  | none => Except.ok ()
  | some r =>
      if r data then Except.ok ()
      else Except.error (CoreExn.core400 ("Invalid value : " ++ data))

/-- A `BoolField` object; `BoolField.__init__` only forwards to
`Field.__init__`. -/
structure BoolField extends Field

/-- `BoolField.__init__`. -/
def BoolField.init (a : FieldArgs) : BoolField where
  toField := Field.init a

/-- `BoolField.check(data)`: raises 400 unless `type(data) is bool`. -/
def BoolField.check (_f : BoolField) (data : PyVal) : Except CoreExn Unit :=
  if data.isBool then Except.ok ()
  else Except.error (CoreExn.core400 "Invalid boolean")

/-- An `IntField` object with its SQL-oriented extras. -/
structure IntField extends Field where
  size : Option Nat
  zerofill : Bool
  unsigned : Bool

/-- `IntField.__init__`. -/
def IntField.init (size : Option Nat) (zerofill unsigned : Option Bool)
    (a : FieldArgs) : IntField where
  toField := Field.init a
  size := size
  zerofill := zerofill.getD false
  unsigned := unsigned.getD false

/-- `IntField.check(data)`: raises 400 unless `type(data) is int`. -/
def IntField.check (_f : IntField) (data : PyVal) : Except CoreExn Unit :=
  if data.isInt then Except.ok ()
  else Except.error (CoreExn.core400 "Invalid integer")

/-- A `CurrencyField` object; `size` and `precision` are hard-coded to
10 and 2 by its constructor. -/
structure CurrencyField extends Field where
  size : Nat
  precision : Nat

/-- `CurrencyField.__init__`. -/
def CurrencyField.init (a : FieldArgs) : CurrencyField where
  toField := Field.init a
  size := 10
  precision := 2

/-- `CurrencyField.check(data)`: raises 400 unless `type(data)` is
`float` or `int`. -/
def CurrencyField.check (_f : CurrencyField) (data : PyVal) :
    Except CoreExn Unit :=
  if !data.isFloat && !data.isInt then
    Except.error (CoreExn.core400 "Invalid currency")
  else Except.ok ()

/-- A `DecimalField` object. -/
structure DecimalField extends Field where
  size : Nat
  precision : Nat

/-- `DecimalField.__init__` (size defaults to 10, precision to 5). -/
def DecimalField.init (size precision : Option Nat) (a : FieldArgs) :
    DecimalField where
  toField := Field.init a
  size := size.getD 10
  precision := precision.getD 5

/-- `DecimalField.check(data)`: raises 400 unless `type(data)` is
`float` or `int`. -/
def DecimalField.check (_f : DecimalField) (data : PyVal) :
    Except CoreExn Unit :=
  if !data.isFloat && !data.isInt then
    Except.error (CoreExn.core400 "Invalid decimal")
  else Except.ok ()

/-- A `DateField` object. Its class attribute `regex` is the pattern
`RFC3339.date` from the (external) `lib.regex` module, passed in here
as a parameter of `DateField.init`. -/
structure DateField extends Field

/-- `DateField.__init__`; `rfc3339date` models the class attribute
`regex = RFC3339.date`. -/
def DateField.init (rfc3339date : Regex) (a : FieldArgs) : DateField where
  toField := Field.initWith (some rfc3339date) a

/-- `DateField.check(data)`: raises 400 unless `type(data)` is
`datetime.date`; the class regex is not consulted. -/
def DateField.check (_f : DateField) (data : PyVal) : Except CoreExn Unit :=
  if data.isDate then Except.ok ()
  else Except.error (CoreExn.core400 "Invalid date")

/-- A `DateTimeField` object (class regex `RFC3339.datetime`). -/
structure DateTimeField extends Field

/-- `DateTimeField.__init__`. -/
def DateTimeField.init (rfc3339datetime : Regex) (a : FieldArgs) :
    DateTimeField where
  toField := Field.initWith (some rfc3339datetime) a

/-- `DateTimeField.check(data)`: raises 400 unless `type(data)` is
`datetime.datetime`. -/
def DateTimeField.check (_f : DateTimeField) (data : PyVal) :
    Except CoreExn Unit :=
  if data.isDatetime then Except.ok ()
  else Except.error (CoreExn.core400 "Invalid datetime")

/-- A `TimeField` object (class regex `RFC3339.time`). -/
structure TimeField extends Field

/-- `TimeField.__init__`. -/
def TimeField.init (rfc3339time : Regex) (a : FieldArgs) : TimeField where
  toField := Field.initWith (some rfc3339time) a

/-- `TimeField.check(data)`: raises 400 unless `type(data)` is
`datetime.time`. -/
def TimeField.check (_f : TimeField) (data : PyVal) : Except CoreExn Unit :=
  if data.isTime then Except.ok ()
  else Except.error (CoreExn.core400 "Invalid time")

/-- An `EnumField` object. -/
structure EnumField extends Field where
  values : List PyVal

/-- `EnumField.__init__`: raises `Core500Exception` when the `values`
argument is absent (`None`). -/
def EnumField.init (values : Option (List PyVal)) (a : FieldArgs) :
    Except CoreExn EnumField :=
  match values with
  | none => Except.error (CoreExn.core500 "value is required for EnumCol")
  | some vs => Except.ok { toField := Field.init a, values := vs }

/-- `EnumField.check(data)`: raises 400 on a list; otherwise tests
`data.encode("utf8") in values`, raising 400 on failure. On a value
with no `encode` attribute, Python raises an `AttributeError`. -/
def EnumField.check (f : EnumField) (data : PyVal) : Except CoreExn Unit :=
  if data.isList then
    Except.error (CoreExn.core400 "Invalid type List for EnumField value")
  else
    match data with
    | PyVal.pyStr s =>
        if pyMem (PyVal.pyBytes (encodeUtf8 s)) f.values then Except.ok ()
        else Except.error (CoreExn.core400 "Invalid value")
    | _ => Except.error (CoreExn.pyError "AttributeError: no attribute encode")

/-- A `SetField` object. -/
structure SetField extends Field where
  values : List PyVal

/-- `SetField.__init__`: raises `Core500Exception` when the `values`
argument is absent (`None`). -/
def SetField.init (values : Option (List PyVal)) (a : FieldArgs) :
    Except CoreExn SetField :=
  match values with
  | none => Except.error (CoreExn.core500 "values is required for SetCol")
  | some vs => Except.ok { toField := Field.init a, values := vs }

/-- One iteration of the loop in `SetField.check`: tests
`val.encode("utf8") in values`, raising 400 on failure (and Python's
`AttributeError` when `val` has no `encode`). -/
def SetField.checkElem (values : List PyVal) (val : PyVal) :
    Except CoreExn Unit :=
  match val with
  | PyVal.pyStr s =>
      if pyMem (PyVal.pyBytes (encodeUtf8 s)) values then Except.ok ()
      else Except.error (CoreExn.core400 "Invalid value")
  | _ => Except.error (CoreExn.pyError "AttributeError: no attribute encode")

/-- The loop of `SetField.check` over the list's elements, stopping at
the first failure. -/
def SetField.checkElems (values : List PyVal) : List PyVal →
    Except CoreExn Unit
  | [] => Except.ok ()
  | v :: vs =>
      match SetField.checkElem values v with
      | Except.ok _ => SetField.checkElems values vs
      | Except.error e => Except.error e

/-- `SetField.check(data)`: raises 400 unless `type(data) is list`, then
validates every element with `SetField.checkElem`. -/
def SetField.check (f : SetField) (data : PyVal) : Except CoreExn Unit :=
  match data with
  | PyVal.pyList l => SetField.checkElems f.values l
  | _ => Except.error (CoreExn.core400 "Invalid set")

/-- A `StringField` object. Its instance attribute `regex` (stored in
`toField.regex`) is always set: the compiled custom pattern when one is
given, else the module-level `XSS` pattern. -/
structure StringField extends Field where
  length : Option Nat

/-- `StringField.__init__`; `xss` models the pattern constant `XSS` from
the (external) `lib.regex` module. -/
def StringField.init (length : Option Nat) (rx : Option Regex)
    (xss : Regex) (a : FieldArgs) : StringField where
  toField :=
    { Field.init a with
        regex := some (match rx with | some r => r | none => xss) }
  length := length

/-- `StringField.check(data)`: raises 400 when `regex.match(data)`
succeeds — the opposite polarity of the base `Field.check`. When
`regex` were `None`, `None.match` would raise an `AttributeError`. -/
def StringField.check (f : StringField) (data : String) :
    Except CoreExn Unit :=
  match f.toField.regex with
  | some r =>
      if r data then
        Except.error (CoreExn.core400 ("Invalid value : " ++ data))
      else Except.ok ()
  | none => Except.error (CoreExn.pyError "AttributeError: no attribute match")

/-- A `ListField` object; like `StringField`, its instance attribute
`regex` is always set (custom pattern or `XSS`). -/
structure ListField extends Field

/-- `ListField.__init__`. -/
def ListField.init (rx : Option Regex) (xss : Regex) (a : FieldArgs) :
    ListField where
  toField :=
    { Field.init a with
        regex := some (match rx with | some r => r | none => xss) }

/-- The loop of `ListField.check`: per element, raises 400 when
`regex.match(val)` succeeds. Elements are expected to be strings (the
class docstring supports only lists of strings); `regex.match` on a
non-string raises a `TypeError`. -/
def ListField.checkElems (rx : Option Regex) : List PyVal →
    Except CoreExn Unit
  | [] => Except.ok ()
  | v :: vs =>
      match rx with
      | none =>
          Except.error (CoreExn.pyError "AttributeError: no attribute match")
      | some r =>
          match v with
          | PyVal.pyStr s =>
              if r s then
                Except.error (CoreExn.core400 ("Invalid value : " ++ s))
              else ListField.checkElems rx vs
          | _ => Except.error (CoreExn.pyError "TypeError: expected string")

/-- `ListField.check(data)`: raises 400 unless `type(data) is list`, then
rejects each element matched by the instance regex. -/
def ListField.check (f : ListField) (data : PyVal) : Except CoreExn Unit :=
  match data with
  | PyVal.pyList l => ListField.checkElems f.toField.regex l
  | _ => Except.error (CoreExn.core400 "Invalid List")

/-- Modelled from the spec: the mime-type registry `lib.mimetype.MimeType`
(module absent from the sources; the spec describes it as a "mime-type
registry (list of supported types/extension mappings)"). Maps a known
mime type to its file extensions; the image types and the jpg/jpeg/jpe,
png, gif extensions are the ones the spec and the field module name. -/
def MimeType.extensionsOf : String → List String
  | "image/png" => ["png"]
  | "image/jpeg" => ["jpg", "jpeg", "jpe"]
  | "image/gif" => ["gif"]
  | "application/pdf" => ["pdf"]
  | _ => []

/-- Modelled from the spec: `MimeType.image`, the default allow-list of
`ImageField`. -/
def MimeType.image : List String := ["image/png", "image/jpeg", "image/gif"]

/-- Modelled from the spec: `MimeType.openformat`, the default allow-list
of `BinaryField`. -/
def MimeType.openformat : List String := ["application/pdf", "image/png"]

/-- Modelled from the spec: `MimeType.check(mimeTypes)`, true when every
listed mime type is known to the registry. -/
def MimeType.check (mimeTypes : List String) : Bool :=
  mimeTypes.all fun m => !(MimeType.extensionsOf m).isEmpty

/-- Modelled from the spec: `MimeType.checkExtension(mimeType, extension)`,
true when the extension is registered for the mime type. -/
def MimeType.checkExtension (mimeType extension : String) : Bool :=
  (MimeType.extensionsOf mimeType).contains extension

/-- A `BinaryField` object. -/
structure BinaryField extends Field where
  mimeTypes : List String

/-- `BinaryField.__init__`: defaults `mimeTypes` to
`MimeType.openformat` and raises `Core500Exception` when the list holds
an unknown mime type. -/
def BinaryField.init (mimeTypes : Option (List String)) (a : FieldArgs) :
    Except CoreExn BinaryField :=
  let mts := mimeTypes.getD MimeType.openformat
  if !MimeType.check mts then
    Except.error (CoreExn.core500 "Unknow Mime Type")
  else Except.ok { toField := Field.init a, mimeTypes := mts }

/-- `BinaryField.check(mimeType, extension)`: raises 400 when the mime
type is not allowed or does not match the extension. -/
def BinaryField.check (f : BinaryField) (mimeType extension : String) :
    Except CoreExn Unit :=
  if !f.mimeTypes.contains mimeType then
    Except.error (CoreExn.core400 "Invalid mime types")
  else if !MimeType.checkExtension mimeType extension then
    Except.error (CoreExn.core400 "Mime type and extension mismatch")
  else Except.ok ()

/-- An `ImageField` object. -/
structure ImageField extends Field where
  mimeTypes : List String
  mimeType : String
  extension : String

/-- `ImageField.__init__`: defaults (`MimeType.image`, `image/png`,
`png`), then in order raises `Core500Exception` on an unknown mime type
in the allow-list, `Core500Exception` when the output mime type is not
in the allow-list, and `Core400Exception` (as written in the source) on
an output mime-type/extension mismatch, before delegating to
`BinaryField.__init__` (whose registry re-check then passes). -/
def ImageField.init (mimeTypes : Option (List String))
    (mimeType extension : Option String) (a : FieldArgs) :
    Except CoreExn ImageField :=
  let mts := mimeTypes.getD MimeType.image
  let mt := mimeType.getD "image/png"
  let ext := extension.getD "png"
  if !MimeType.check mts then
    Except.error (CoreExn.core500 "Unknow Mime Type")
  else if !mts.contains mt then
    Except.error (CoreExn.core500 "Mime Type not in allowed list")
  else if !MimeType.checkExtension mt ext then
    Except.error (CoreExn.core400 "Mime type and extension mismatch")
  else
    Except.ok
      { toField := Field.init a, mimeTypes := mts, mimeType := mt,
        extension := ext }

/-- The image formats `ImageField.convert` can produce. -/
inductive ImgFormat where
  | jpeg
  | png
  | gif
deriving DecidableEq, Repr

/-- Modelled from the spec: a decoded image, as handled by the external
image codec (PIL); its pixel content is abstract. -/
structure Img where
  pixels : List Nat
deriving DecidableEq, Repr

/-- Modelled from the spec: a byte stream fed to or produced by the
image codec — either an image encoded in a known format or raw
non-image bytes. -/
inductive Stream where
  | encoded (fmt : ImgFormat) (img : Img)
  | raw (bytes : List Nat)
deriving DecidableEq, Repr

/-- Modelled from the spec: `PIL.Image.open`, decoding a stream into an
image; fails (Python exception) on a non-image stream. -/
def pilOpen : Stream → Option Img
  | Stream.encoded _ i => some i
  | Stream.raw _ => none

/-- Modelled from the spec: `image.save(tmp, filetype)` followed by
reading back `tmp` — the image re-encoded in the requested format. -/
def pilSave (fmt : ImgFormat) (i : Img) : Stream :=
  Stream.encoded fmt i

/-- `ImageField.convert(data)`: picks the output format from
`self.extension` (jpg/jpeg/jpe → JPEG, png → PNG, gif → GIF), returning
the input unchanged for any other extension; otherwise decodes the
stream and re-encodes it in that format. -/
def ImageField.convert (f : ImageField) (data : Stream) :
    Except CoreExn Stream :=
  let ft : Option ImgFormat :=
    if ["jpg", "jpeg", "jpe"].contains f.extension then some ImgFormat.jpeg
    else if ["png"].contains f.extension then some ImgFormat.png
    else if ["gif"].contains f.extension then some ImgFormat.gif
    else none
  match ft with
  | none => Except.ok data
  | some fmt =>
      match pilOpen data with
      | some img => Except.ok (pilSave fmt img)
      | none => Except.error (CoreExn.pyError "cannot identify image file")

/-! Concrete objects used to evaluate the embedded code on sample
configurations and inputs. -/

/-- A pattern whose `match` succeeds on every string (as the compiled
pattern of the empty regular expression does). -/
def anyPattern : Regex := fun _ => true

/-- A sample stand-in for the external `XSS` pattern: matches strings
starting with an angle bracket. -/
def xssSample : Regex := fun s =>
  match s.data with
  | '<' :: _ => true
  | _ => false

/-- A base field whose `regex` is `anyPattern`. -/
def fieldAny : Field := Field.initWith (some anyPattern) FieldArgs.dflt

/-- A base field with the default class attribute `regex = None`. -/
def fieldPlain : Field := Field.init FieldArgs.dflt

/-- A `StringField` built with the custom pattern `anyPattern`. -/
def sfAny : StringField :=
  StringField.init none (some anyPattern) xssSample FieldArgs.dflt

/-- A `DateField` whose class pattern is `anyPattern`. -/
def dfAny : DateField := DateField.init anyPattern FieldArgs.dflt

/-- Constructor arguments with `identifier=True`, `require=False` and a
non-`None` `default`. -/
def argsId : FieldArgs :=
  { FieldArgs.dflt with
      identifier := true
      require := false
      default := some (PyVal.pyInt 7) }

/-- A `SetField` whose `values` hold the plain (unencoded) string "a". -/
def setStr : SetField :=
  { toField := Field.init FieldArgs.dflt, values := [PyVal.pyStr "a"] }

/-- A `SetField` whose `values` hold the UTF-8 byte string b"a". -/
def setBytes : SetField :=
  { toField := Field.init FieldArgs.dflt, values := [PyVal.pyBytes [97]] }

/-- An `EnumField` whose `values` hold the UTF-8 byte string b"a". -/
def enumBytes : EnumField :=
  { toField := Field.init FieldArgs.dflt, values := [PyVal.pyBytes [97]] }

/-- An `EnumField` whose `values` hold only plain (unencoded) strings. -/
def enumStr : EnumField :=
  { toField := Field.init FieldArgs.dflt
    values := [PyVal.pyStr "a", PyVal.pyStr "b"] }

/-- An `ImageField` configured for PNG output (the constructor
defaults). -/
def imgPng : ImageField :=
  { toField := Field.init FieldArgs.dflt
    mimeTypes := MimeType.image
    mimeType := "image/png"
    extension := "png" }

/-- An `ImageField` value whose output extension is outside the
supported conversion formats. -/
def imgBmp : ImageField :=
  { toField := Field.init FieldArgs.dflt
    mimeTypes := MimeType.image
    mimeType := "image/png"
    extension := "bmp" }

/-- A `BoolField`, an `IntField`, a `CurrencyField` and a `DecimalField`
with default arguments. -/
def bfDflt : BoolField := BoolField.init FieldArgs.dflt

/-- An `IntField` with default arguments. -/
def ifDflt : IntField := IntField.init none none none FieldArgs.dflt

/-- A `CurrencyField` with default arguments. -/
def cfDflt : CurrencyField := CurrencyField.init FieldArgs.dflt

/-- A `DecimalField` with default arguments. -/
def dcfDflt : DecimalField := DecimalField.init none none FieldArgs.dflt

/-- A `StringField` built without a custom pattern (so its regex is the
`XSS` stand-in). -/
def sfXss : StringField :=
  StringField.init none none xssSample FieldArgs.dflt

/-- A `ListField` built without a custom pattern. -/
def lfXss : ListField := ListField.init none xssSample FieldArgs.dflt

/-! Helper lemmas shared by the claim theorems. -/

/-- The loop of `SetField.check` over a list of strings: succeeds when
every element's UTF-8 encoding is in `values`, else raises 400 at the
first failure. -/
theorem setCheckElems_eq (values : List PyVal) (l : List String) :
    SetField.checkElems values (l.map PyVal.pyStr) =
      (if l.all (fun x => pyMem (PyVal.pyBytes (encodeUtf8 x)) values)
       then Except.ok ()
       else Except.error (CoreExn.core400 "Invalid value")) := by
  induction l with
  | nil => rfl
  | cons x xs ih =>
      simp only [List.map_cons, SetField.checkElems, SetField.checkElem,
        List.all_cons]
      rcases Bool.eq_false_or_eq_true
          (pyMem (PyVal.pyBytes (encodeUtf8 x)) values) with h | h <;>
        simp [h, ih]

/-- The loop of `ListField.check` over a list of strings: succeeds when
the regex matches no element. -/
theorem listCheckElems_ok_iff (r : Regex) (l : List String) :
    ListField.checkElems (some r) (l.map PyVal.pyStr) = Except.ok () ↔
      ∀ v ∈ l, r v = false := by
  induction l with
  | nil => simp [ListField.checkElems]
  | cons x xs ih =>
      cases h : r x
      · simp [ListField.checkElems, h, ih]
      · simp [ListField.checkElems, h]

/-- A `bytes` probe is never a member of a list of plain strings. -/
theorem pyMem_bytes_of_all_str (values : List PyVal) (bs : List Nat)
    (h : ∀ v ∈ values, v.isStr = true) :
    pyMem (PyVal.pyBytes bs) values = false := by
  induction values with
  | nil => rfl
  | cons v vs ih =>
      have hv := h v (List.mem_cons_self v vs)
      have ihv := ih fun x hx => h x (List.mem_cons_of_mem v hx)
      cases v <;> simp_all [pyMem, PyVal.beq, PyVal.isStr]

/-- `EnumField.check` returns normally only on a string whose UTF-8
encoding is a member of `values`. -/
theorem enumCheck_ok (e : EnumField) (d : PyVal)
    (h : e.check d = Except.ok ()) :
    ∃ s, d = PyVal.pyStr s ∧
      pyMem (PyVal.pyBytes (encodeUtf8 s)) e.values = true := by
  cases d with
  | pyStr s =>
      refine ⟨s, rfl, ?_⟩
      by_contra hm
      rw [Bool.not_eq_true] at hm
      have he : e.check (PyVal.pyStr s) =
          Except.error (CoreExn.core400 "Invalid value") := by
        simp [EnumField.check, PyVal.isList, hm]
      rw [he] at h
      exact Except.noConfusion h
  | pyBool b => exact Except.noConfusion h
  | pyInt n => exact Except.noConfusion h
  | pyFloat q => exact Except.noConfusion h
  | pyBytes bs => exact Except.noConfusion h
  | pyList l => exact Except.noConfusion h
  | pyDate dd => exact Except.noConfusion h
  | pyDatetime dd => exact Except.noConfusion h
  | pyTime t => exact Except.noConfusion h
  | pyNone => exact Except.noConfusion h

/-- `SetField.checkElem` returns normally only on a string whose UTF-8
encoding is a member of `values`. -/
theorem setCheckElem_ok (values : List PyVal) (v : PyVal)
    (h : SetField.checkElem values v = Except.ok ()) :
    ∃ s, v = PyVal.pyStr s ∧
      pyMem (PyVal.pyBytes (encodeUtf8 s)) values = true := by
  cases v with
  | pyStr s =>
      refine ⟨s, rfl, ?_⟩
      by_contra hm
      rw [Bool.not_eq_true] at hm
      have he : SetField.checkElem values (PyVal.pyStr s) =
          Except.error (CoreExn.core400 "Invalid value") := by
        simp [SetField.checkElem, hm]
      rw [he] at h
      exact Except.noConfusion h
  | pyBool b => exact Except.noConfusion h
  | pyInt n => exact Except.noConfusion h
  | pyFloat q => exact Except.noConfusion h
  | pyBytes bs => exact Except.noConfusion h
  | pyList l => exact Except.noConfusion h
  | pyDate dd => exact Except.noConfusion h
  | pyDatetime dd => exact Except.noConfusion h
  | pyTime t => exact Except.noConfusion h
  | pyNone => exact Except.noConfusion h

/-- `SetField.check` on a list of strings succeeds exactly when every
element's UTF-8 encoding is in `values`. -/
theorem setCheck_ok_iff (f : SetField) (l : List String) :
    f.check (PyVal.pyList (l.map PyVal.pyStr)) = Except.ok () ↔
      ∀ x ∈ l, pyMem (PyVal.pyBytes (encodeUtf8 x)) f.values = true := by
  have hrfl : f.check (PyVal.pyList (l.map PyVal.pyStr)) =
      SetField.checkElems f.values (l.map PyVal.pyStr) := rfl
  rw [hrfl, setCheckElems_eq]
  rcases Bool.eq_false_or_eq_true
      (l.all fun x => pyMem (PyVal.pyBytes (encodeUtf8 x)) f.values) with
    hall | hall
  · exact iff_of_true (by simp [hall]) (List.all_eq_true.mp hall)
  · refine iff_of_false (by simp [hall]) fun hc => ?_
    have hT : l.all (fun x => pyMem (PyVal.pyBytes (encodeUtf8 x)) f.values) =
        true := List.all_eq_true.mpr hc
    rw [hT] at hall
    exact Bool.noConfusion hall

/-!  The claim theorems. -/

/-- C1 (counterexample): `StringField` is a field object whose `regex`
attribute is set (here to a pattern matching every string, as the
compiled empty pattern does), yet its `check` raises a 400 error on the
matching input "abc" instead of accepting it. -/
theorem C1_counterexample :
    sfAny.toField.regex = some anyPattern ∧
    anyPattern "abc" = true ∧
    sfAny.check "abc" =
      Except.error (CoreExn.core400 "Invalid value : abc") :=
  ⟨rfl, rfl, rfl⟩

/-- C1 (amended): fields validated by the inherited base `Field.check`
accept exactly the strings matching their pattern; `StringField.check`
inverts the polarity, rejecting exactly the matching strings; and
`DateField.check` ignores the regex attribute entirely, accepting
exactly `datetime.date` values. -/
theorem C1_regex_check (f : Field) (sf : StringField) (df : DateField)
    (r : Regex) (data : String) (d : PyVal)
    (hf : f.regex = some r) (hs : sf.toField.regex = some r) :
    (f.check data = Except.ok () ↔ r data = true) ∧
    (sf.check data = Except.ok () ↔ r data = false) ∧
    (df.check d = Except.ok () ↔ d.isDate = true) := by
  refine ⟨?_, ?_, ?_⟩
  · cases h : r data <;> simp [Field.check, hf, h]
  · cases h : r data <;> simp [StringField.check, hs, h]
  · cases h : d.isDate <;> simp [DateField.check, h]

/-- C1 (witness): a concrete base field whose pattern matches "abc" has
`check` accept "abc". -/
theorem C1_regex_check_witness : fieldAny.check "abc" = Except.ok () :=
  ((C1_regex_check fieldAny sfAny dfAny anyPattern "abc" PyVal.pyNone
      rfl rfl).1).mpr rfl

/-- C2: `identifier=True` forces `require=True` and `default=None`
whatever `require`/`default` arguments are passed; with
`identifier=False` the `require` and `default` arguments are stored
unchanged. -/
theorem C2_identifier_invariant (a : FieldArgs) :
    (a.identifier = true →
      (Field.init a).require = true ∧ (Field.init a).default = none) ∧
    (a.identifier = false →
      (Field.init a).require = a.require ∧
      (Field.init a).default = a.default) := by
  constructor <;> intro h <;> simp [Field.init, Field.initWith, h]

/-- C2 (witness): constructed with `identifier=True`, `require=False`
and `default=7`, the field still reports `require=True`,
`default=None`. -/
theorem C2_identifier_invariant_witness :
    (Field.init argsId).require = true ∧ (Field.init argsId).default = none :=
  (C2_identifier_invariant argsId).1 rfl

/-- C3 (counterexample): a `SetField` declared with
`values=["a"]` (plain strings) and the list input `["a"]`: every
element of the input is literally a member of the declared values
collection, yet `check` raises a 400 error, because membership is
tested on the element's UTF-8 byte encoding b"a", which is not in
`values`. -/
theorem C3_counterexample :
    SetField.init (some [PyVal.pyStr "a"]) FieldArgs.dflt =
      Except.ok setStr ∧
    PyVal.pyStr "a" ∈ setStr.values ∧
    setStr.check (PyVal.pyList [PyVal.pyStr "a"]) =
      Except.error (CoreExn.core400 "Invalid value") :=
  ⟨rfl, List.mem_cons_self _ _, rfl⟩

/-- C3 (amended): `SetField.check` raises 400 on any non-list input and
on any list with a string element whose UTF-8 encoding is outside
`values`, returning normally when every element's encoding is a member;
`EnumField.check` raises 400 on any list input and on any string whose
UTF-8 encoding is outside `values`. -/
theorem C3_membership (f : SetField) (e : EnumField) (d : PyVal)
    (l : List String) (lp : List PyVal) (s : String) :
    (d.isList = false →
      f.check d = Except.error (CoreExn.core400 "Invalid set")) ∧
    (f.check (PyVal.pyList (l.map PyVal.pyStr)) = Except.ok () ↔
      ∀ x ∈ l, pyMem (PyVal.pyBytes (encodeUtf8 x)) f.values = true) ∧
    (raises400 (f.check (PyVal.pyList (l.map PyVal.pyStr))) = true ↔
      ¬ ∀ x ∈ l, pyMem (PyVal.pyBytes (encodeUtf8 x)) f.values = true) ∧
    (e.check (PyVal.pyList lp) =
      Except.error
        (CoreExn.core400 "Invalid type List for EnumField value")) ∧
    (e.check (PyVal.pyStr s) = Except.ok () ↔
      pyMem (PyVal.pyBytes (encodeUtf8 s)) e.values = true) ∧
    (raises400 (e.check (PyVal.pyStr s)) = true ↔
      pyMem (PyVal.pyBytes (encodeUtf8 s)) e.values = false) := by
  refine ⟨?_, setCheck_ok_iff f l, ?_, ?_, ?_, ?_⟩
  · intro h
    cases d <;> simp_all [SetField.check, PyVal.isList]
  · have hrfl : f.check (PyVal.pyList (l.map PyVal.pyStr)) =
        SetField.checkElems f.values (l.map PyVal.pyStr) := rfl
    rw [hrfl, setCheckElems_eq]
    rcases Bool.eq_false_or_eq_true
        (l.all fun x => pyMem (PyVal.pyBytes (encodeUtf8 x)) f.values) with
      hall | hall
    · exact iff_of_false (by simp [hall, raises400])
        fun hc => hc (List.all_eq_true.mp hall)
    · refine iff_of_true (by simp [hall, raises400]) fun hc => ?_
      rw [List.all_eq_true.mpr hc] at hall
      exact Bool.noConfusion hall
  · simp [EnumField.check, PyVal.isList]
  · cases h : pyMem (PyVal.pyBytes (encodeUtf8 s)) e.values <;>
      simp [EnumField.check, PyVal.isList, h]
  · cases h : pyMem (PyVal.pyBytes (encodeUtf8 s)) e.values <;>
      simp [EnumField.check, PyVal.isList, raises400, h]

/-- C3 (witness): the enum field whose values hold the byte string b"a"
accepts the string "a", and the set field with byte-string values
rejects a list holding "b". -/
theorem C3_membership_witness :
    enumBytes.check (PyVal.pyStr "a") = Except.ok () ∧
    raises400 (setBytes.check (PyVal.pyList [PyVal.pyStr "b"])) = true := by
  constructor
  · exact ((C3_membership setBytes enumBytes PyVal.pyNone ["b"] []
        "a").2.2.2.2.1).mpr (by decide)
  · exact ((C3_membership setBytes enumBytes PyVal.pyNone ["b"] []
        "a").2.2.1).mpr (by decide)

/-- C4: invalid configurations at field-declaration time — missing
`values` for Enum/Set, an unknown mime type for Binary/Image, an output
mime type outside the allow-list — raise `Core500Exception`; but on an
output mime-type/extension mismatch `ImageField.__init__` raises
`Core400Exception` (a client-input error), contradicting the claimed
failure policy. -/
theorem C4_constructor_errors :
    raises500 (EnumField.init none FieldArgs.dflt) = true ∧
    raises500 (SetField.init none FieldArgs.dflt) = true ∧
    raises500 (BinaryField.init (some ["application/x-unknown"])
      FieldArgs.dflt) = true ∧
    raises500 (ImageField.init (some ["image/tiff"]) none none
      FieldArgs.dflt) = true ∧
    raises500 (ImageField.init (some ["image/gif"]) (some "image/png")
      none FieldArgs.dflt) = true ∧
    ImageField.init none none (some "gif") FieldArgs.dflt =
      Except.error (CoreExn.core400 "Mime type and extension mismatch") :=
  ⟨rfl, rfl, rfl, rfl, rfl, rfl⟩

/-- C5: the base `Field.check` raises a 400 validation error exactly
when `regex` is set and the input does not match it; with `regex`
unset (`None`, the base-class default) every input is accepted. -/
theorem C5_base_check (f : Field) (data : String) :
    (f.regex = none → f.check data = Except.ok ()) ∧
    (∀ r : Regex, f.regex = some r → r data = true →
      f.check data = Except.ok ()) ∧
    (∀ r : Regex, f.regex = some r → r data = false →
      f.check data =
        Except.error (CoreExn.core400 ("Invalid value : " ++ data))) := by
  refine ⟨fun h => ?_, fun r h ht => ?_, fun r h hf => ?_⟩
  · simp [Field.check, h]
  · simp [Field.check, h, ht]
  · simp [Field.check, h, hf]

/-- C5 (witness): the plain base field (regex unset) accepts "anything",
and a field with an always-matching pattern accepts "abc". -/
theorem C5_base_check_witness :
    fieldPlain.check "anything" = Except.ok () ∧
    fieldAny.check "abc" = Except.ok () :=
  ⟨(C5_base_check fieldPlain "anything").1 rfl,
   (C5_base_check fieldAny "abc").2.1 anyPattern rfl rfl⟩

/-- C6: the type-validated checks accept exactly the matching exact
runtime type — `BoolField` booleans, `IntField` integers,
`CurrencyField` and `DecimalField` floats or ints — and raise a
400-class error on everything else. -/
theorem C6_type_checks (bf : BoolField) (itf : IntField)
    (cf : CurrencyField) (dcf : DecimalField) (d : PyVal) :
    (bf.check d = Except.ok () ↔ d.isBool = true) ∧
    (raises400 (bf.check d) = !d.isBool) ∧
    (itf.check d = Except.ok () ↔ d.isInt = true) ∧
    (raises400 (itf.check d) = !d.isInt) ∧
    (cf.check d = Except.ok () ↔ (d.isFloat || d.isInt) = true) ∧
    (raises400 (cf.check d) = (!d.isFloat && !d.isInt)) ∧
    (dcf.check d = Except.ok () ↔ (d.isFloat || d.isInt) = true) ∧
    (raises400 (dcf.check d) = (!d.isFloat && !d.isInt)) := by
  refine ⟨?_, ?_, ?_, ?_, ?_, ?_, ?_, ?_⟩ <;>
    cases hb : d.isBool <;> cases hi : d.isInt <;> cases hf : d.isFloat <;>
      simp [BoolField.check, IntField.check, CurrencyField.check,
        DecimalField.check, raises400, hb, hi, hf]

/-- C7: built without a custom pattern, `StringField.check` rejects
exactly the strings matching the XSS pattern and `ListField.check`
rejects exactly the lists with an element matching it; a custom pattern
replaces XSS as the rejection rule for both. -/
theorem C7_xss_default (xss rx : Regex) (len : Option Nat) (a : FieldArgs)
    (s : String) (l : List String) :
    ((StringField.init len none xss a).toField.regex = some xss) ∧
    ((StringField.init len none xss a).check s = Except.ok () ↔
      xss s = false) ∧
    (raises400 ((StringField.init len none xss a).check s) = xss s) ∧
    ((StringField.init len (some rx) xss a).toField.regex = some rx) ∧
    ((StringField.init len (some rx) xss a).check s = Except.ok () ↔
      rx s = false) ∧
    ((ListField.init none xss a).check (PyVal.pyList (l.map PyVal.pyStr)) =
        Except.ok () ↔ ∀ v ∈ l, xss v = false) ∧
    ((ListField.init (some rx) xss a).check
        (PyVal.pyList (l.map PyVal.pyStr)) = Except.ok () ↔
      ∀ v ∈ l, rx v = false) := by
  refine ⟨rfl, ?_, ?_, rfl, ?_, ?_, ?_⟩
  · cases h : xss s <;> simp [StringField.check, StringField.init,
      Field.init, Field.initWith, h]
  · cases h : xss s <;> simp [StringField.check, StringField.init,
      Field.init, Field.initWith, raises400, h]
  · cases h : rx s <;> simp [StringField.check, StringField.init,
      Field.init, Field.initWith, h]
  · exact listCheckElems_ok_iff xss l
  · exact listCheckElems_ok_iff rx l

/-- C7 (witness): with the sample XSS pattern, the default string field
accepts "hello" and rejects a script tag, and a custom pattern replaces
the rule. -/
theorem C7_xss_default_witness :
    sfXss.check "hello" = Except.ok () ∧
    raises400 (sfXss.check "<script>") = true := by
  constructor
  · exact ((C7_xss_default xssSample anyPattern none FieldArgs.dflt
        "hello" []).2.1).mpr (by decide)
  · have h := (C7_xss_default xssSample anyPattern none FieldArgs.dflt
        "<script>" []).2.2.1
    show raises400 ((StringField.init none none xssSample
        FieldArgs.dflt).check "<script>") = true
    rw [h]
    decide

/-- C8: `ImageField.convert` returns the input stream unchanged when
the configured output extension is not one of jpg/jpeg/jpe, png, gif;
for extension "png" it re-encodes the decoded image as PNG (a PNG
stream from a JPEG input). -/
theorem C8_convert (f : ImageField) (data : Stream) (img : Img) :
    ((["jpg", "jpeg", "jpe", "png", "gif"] : List String).contains
        f.extension = false →
      f.convert data = Except.ok data) ∧
    (f.extension = "png" →
      f.convert (Stream.encoded ImgFormat.jpeg img) =
        Except.ok (Stream.encoded ImgFormat.png img)) := by
  constructor
  · intro h
    simp at h
    obtain ⟨h1, h2, h3, h4, h5⟩ := h
    simp [ImageField.convert, h1, h2, h3, h4, h5]
  · intro h
    simp [ImageField.convert, h, pilOpen, pilSave]

/-- C8 (witness): the field configured with extension "bmp" passes a
raw stream through unchanged, and the default PNG field converts a
JPEG-encoded stream to a PNG-encoded one. -/
theorem C8_convert_witness :
    imgBmp.convert (Stream.raw [0, 1]) = Except.ok (Stream.raw [0, 1]) ∧
    imgPng.convert (Stream.encoded ImgFormat.jpeg (Img.mk [5])) =
      Except.ok (Stream.encoded ImgFormat.png (Img.mk [5])) :=
  ⟨(C8_convert imgBmp (Stream.raw [0, 1]) (Img.mk [5])).1 (by decide),
   (C8_convert imgPng (Stream.raw []) (Img.mk [5])).2 rfl⟩

/-- C9: `IntField.check` rejects both booleans with a 400 error: the
source tests `type(data) is not int`, and the exact runtime type of a
Python boolean is `bool`, not `int`. -/
theorem C9_bool_rejected (f : IntField) (b : Bool) :
    f.check (PyVal.pyBool b) =
      Except.error (CoreExn.core400 "Invalid integer") := rfl

/-- C10: Enum/Set membership is decided on the UTF-8 byte encoding of
the input: a string (or set element) is accepted exactly when its
encoding is a member of `values`; hence with `values` holding only
plain (unencoded) strings, `EnumField.check` accepts no input at all
and `SetField.check` accepts no element (only the empty list). -/
theorem C10_encoded_membership (e : EnumField) (f : SetField) (s : String)
    (d : PyVal) (l : List PyVal) :
    (e.check (PyVal.pyStr s) = Except.ok () ↔
      pyMem (PyVal.pyBytes (encodeUtf8 s)) e.values = true) ∧
    (SetField.checkElem f.values (PyVal.pyStr s) = Except.ok () ↔
      pyMem (PyVal.pyBytes (encodeUtf8 s)) f.values = true) ∧
    ((∀ v ∈ e.values, v.isStr = true) → e.check d ≠ Except.ok ()) ∧
    ((∀ v ∈ f.values, v.isStr = true) →
      f.check (PyVal.pyList l) = Except.ok () → l = []) := by
  refine ⟨?_, ?_, ?_, ?_⟩
  · cases h : pyMem (PyVal.pyBytes (encodeUtf8 s)) e.values <;>
      simp [EnumField.check, PyVal.isList, h]
  · cases h : pyMem (PyVal.pyBytes (encodeUtf8 s)) f.values <;>
      simp [SetField.checkElem, h]
  · intro hall hc
    obtain ⟨s', _, hm⟩ := enumCheck_ok e d hc
    rw [pyMem_bytes_of_all_str e.values _ hall] at hm
    exact Bool.noConfusion hm
  · intro hall hok
    cases l with
    | nil => rfl
    | cons v vs =>
        exfalso
        have hstep : f.check (PyVal.pyList (v :: vs)) =
            (match SetField.checkElem f.values v with
             | Except.ok _ => SetField.checkElems f.values vs
             | Except.error e => Except.error e) := rfl
        rw [hstep] at hok
        cases hce : SetField.checkElem f.values v with
        | ok u =>
            cases u
            obtain ⟨s', _, hm⟩ := setCheckElem_ok f.values v hce
            rw [pyMem_bytes_of_all_str f.values _ hall] at hm
            exact Bool.noConfusion hm
        | error err =>
            rw [hce] at hok
            exact Except.noConfusion hok

/-- C10 (witness): an enum whose values are the plain strings "a", "b"
rejects the very string "a", while an enum whose values hold the byte
string b"a" accepts it. -/
theorem C10_encoded_membership_witness :
    enumStr.check (PyVal.pyStr "a") ≠ Except.ok () ∧
    enumBytes.check (PyVal.pyStr "a") = Except.ok () := by
  constructor
  · exact (C10_encoded_membership enumStr setStr "a" (PyVal.pyStr "a")
        []).2.2.1 (by decide)
  · exact ((C10_encoded_membership enumBytes setStr "a" PyVal.pyNone
        []).1).mpr (by decide)

end Yameo
